import Mathlib

/-!
Shallow embedding of the TikZ rendering pipeline
(`src/tikz_mcp_server.py`, class `TikZMCPServer`):
document normalization, the compile/diagnose pipeline of
`compile_tikz_to_image`, the log diagnostic extractor, and the
argument validation of `handle_call_tool`.
-/

namespace TikzSpec

/-- Python's `pat in s` substring test, on lists of characters:
`containsSeq pat s` is true iff `pat` occurs contiguously in `s`. -/
def containsSeq (pat : List Char) : List Char → Bool
  | [] => pat.isEmpty
  | c :: rest => pat.isPrefixOf (c :: rest) || containsSeq pat rest

/-- Python's `pat in s` on strings (substring containment). -/
def strContains (s pat : String) : Bool :=
  containsSeq pat.toList s.toList

/-- The fixed document template text preceding the fragment
(lines 44-53 of the source, an f-string with a constant preamble). -/
def templateHead : String :=
  "\\documentclass[border=2pt]\x7bstandalone\x7d\n\\usepackage\x7btikz\x7d\n\\usepackage\x7bpgfplots\x7d\n\\usepackage\x7bamsmath\x7d\n\\usepackage\x7bamssymb\x7d\n\\usepackage\x7bxcolor\x7d\n\\usetikzlibrary\x7bshapes,arrows,positioning,calc,decorations.pathreplacing,patterns,fit,backgrounds,mindmap,trees,arrows.meta,angles,quotes\x7d\n\\pgfplotsset\x7bcompat=1.18\x7d\n\n\\begin\x7bdocument\x7d\n"

/-- The fixed document template text following the fragment
(lines 54-56 of the source). -/
def templateTail : String :=
  "\n\\end\x7bdocument\x7d\n"

/-- Document Normalizer (lines 41-56): pass a full document through
unchanged, otherwise wrap the fragment in the fixed template. -/
def normalizeDocument (tikz_code : String) : String :=
  if strContains tikz_code "\\documentclass" then tikz_code
  else templateHead ++ tikz_code ++ templateTail

/-- Python's `str.lower()` (ASCII case folding, as used by the log scan). -/
def pyLower (s : String) : String :=
  ⟨s.data.map Char.toLower⟩

/-- Characters stripped by Python's `str.strip()`. -/
def isSpaceChar (c : Char) : Bool :=
  c = ' ' || c = '\t' || c = '\n' || c = '\r' || c = '\x0b' || c = '\x0c'

/-- Strip leading and trailing whitespace from a character list. -/
def trimChars (l : List Char) : List Char :=
  ((l.dropWhile isSpaceChar).reverse.dropWhile isSpaceChar).reverse

/-- Python's `str.strip()`. -/
def pyStrip (s : String) : String :=
  ⟨trimChars s.data⟩

/-- Python's `str.split('\n')` on a character list: always returns at least
one (possibly empty) piece. -/
def splitNlChars : List Char → List (List Char)
  | [] => [[]]
  | c :: rest =>
    match splitNlChars rest with
    | [] => [[c]]
    | h :: t => if c = '\n' then [] :: h :: t else (c :: h) :: t

/-- Python's `log_content.split('\n')` (line 72 of the source). -/
def pySplitNl (s : String) : List String :=
  (splitNlChars s.data).map (fun l => ⟨l⟩)

/-- Python's `str.startswith(pat)`. -/
def pyStartsWith (s pat : String) : Bool :=
  pat.data.isPrefixOf s.data

/-- Python's `'\n'.join(ls)`. -/
def pyJoinNl : List String → String
  | [] => ""
  | [l] => l
  | l :: rest => l ++ "\n" ++ pyJoinNl rest

/-- Python's `lines[-n:]`: the last `n` elements of a list. -/
def takeLast {α : Type} (n : Nat) (l : List α) : List α :=
  l.drop (l.length - n)

/-- The error-indicator keywords of the log scan (line 83 of the source). -/
def triggerKeywords : List String :=
  ["! ", "error:", "undefined", "missing"]

/-- A line starts the error section iff its lowercased text contains one of
the trigger keywords (line 83 of the source). -/
def isTriggerLine (line : String) : Bool :=
  triggerKeywords.any (fun kw => strContains (pyLower line) kw)

/-- State of the log scan: the `error_section` flag and the `error_lines`
and `context_lines` accumulators (lines 75-77 of the source). -/
structure ScanState where
  errorSection : Bool
  errorLines : List String
  contextLines : List String
deriving DecidableEq, Repr

/-- Initial scan state: flag down, both accumulators empty. -/
def initScanState : ScanState :=
  ⟨false, [], []⟩

/-- One step of the context back-fill loop (lines 87-89 of the source):
append the stripped line `j` unless it is empty or already captured. -/
def backfillStep (lines : List String) (acc : List String) (j : Nat) : List String :=
  let t := pyStrip (lines.getD j "")
  if t ≠ "" ∧ t ∉ acc then acc ++ [t] else acc

/-- Context back-fill on a trigger at index `i` (lines 87-89 of the source):
`for j in range(max(0, i-2), i)` over the preceding two lines. -/
def backfill (lines : List String) (i : Nat) (ctx : List String) : List String :=
  ((List.range i).drop (i - 2)).foldl (backfillStep lines) ctx

/-- The log scan loop (lines 79-106 of the source), recursing over the
remaining lines while `i` tracks the index of the current line within
`lines`. Returning without recursing models the `break`. -/
def scanAux (lines : List String) : List String → Nat → ScanState → ScanState
  | [], _, st => st
  | line :: rest, i, st =>
    let lineClean := pyStrip line
    if isTriggerLine line then
      scanAux lines rest (i + 1)
        { errorSection := true,
          errorLines := st.errorLines ++ [lineClean],
          contextLines := backfill lines i st.contextLines }
    else if st.errorSection then
      if lineClean ≠ "" then
        if pyStartsWith line "l." || strContains (pyLower line) "line" then
          scanAux lines rest (i + 1) { st with errorLines := st.errorLines ++ [lineClean] }
        else if strContains line "^" || strContains line "?" then
          scanAux lines rest (i + 1) { st with errorLines := st.errorLines ++ [lineClean] }
        else if pyStartsWith lineClean "\\" || strContains lineClean "\\" then
          scanAux lines rest (i + 1) { st with errorLines := st.errorLines ++ [lineClean] }
        else if st.errorLines.length < 10 then
          scanAux lines rest (i + 1) { st with errorLines := st.errorLines ++ [lineClean] }
        else
          scanAux lines rest (i + 1) st
      else
        if st.errorLines.length > 0 then st
        else scanAux lines rest (i + 1) st
    else
      scanAux lines rest (i + 1) st

/-- The Log Diagnostic Extractor (lines 72-114 of the source), as the list
of report lines: the structured extraction truncated to 20 lines, or the
fallback tail of the last 50 log lines keeping the final 15 non-blank ones. -/
def extract_error_lines (logContent : String) : List String :=
  let lines := pySplitNl logContent
  let st := scanAux lines lines 0 initScanState
  if st.contextLines ≠ [] ∨ st.errorLines ≠ [] then
    (st.contextLines ++ ["--- Error Details ---"] ++ st.errorLines).take 20
  else
    takeLast 15 ((takeLast 50 lines).filter (fun l => !(pyStrip l == "")))

/-- The extractor's report joined into the `error_details` string
(lines 110 and 114 of the source). -/
def error_details_of_log (logContent : String) : String :=
  pyJoinNl (extract_error_lines logContent)

/-- Abstract environment for one pipeline run: the responses of the
external compiler and converter and the resulting files in the scratch
workspace. -/
structure CompileEnv where
  exitCode : Nat
  stderr : String
  logExists : Bool
  logContent : String
  pdfExists : Bool
  convertExitCode : Nat
  pngExists : Bool
  pngBase64 : String
deriving DecidableEq, Repr

/-- The `error_details` string computed in the `CalledProcessError`
handler (lines 68-119 of the source): consult the log via the extractor
when the log file exists, otherwise (and when the extractor yields
nothing) fall back to captured stderr or a fixed sentinel. -/
def compileFailureDetails (env : CompileEnv) : String :=
  if env.logExists then
    let ed := error_details_of_log env.logContent
    if ed = "" then
      if env.stderr = "" then "LaTeX compilation failed with unknown error" else env.stderr
    else ed
  else
    if env.stderr = "" then "LaTeX compilation failed - no log file generated" else env.stderr

/-- Outcome of one run of `compile_tikz_to_image`, one constructor per
distinct `RuntimeError`/success exit of the source (lines 121-144). -/
inductive RenderOutcome where
  | success (pngBase64 : String)
  | compilationFailed (details : String)
  | artifactNotProduced
  | rasterizationFailed
  | rasterNotProduced
deriving DecidableEq, Repr

/-- The compile-and-rasterize pipeline of `compile_tikz_to_image`
(lines 60-144 of the source). The compiler is invoked with `check=True`
(line 66), so any non-zero exit status raises `CalledProcessError` and
lands in the failure handler; the artifact existence check of lines
123-125 is reached only on exit status zero. -/
def compile_tikz_to_image (env : CompileEnv) : RenderOutcome :=
  if env.exitCode = 0 then
    if env.pdfExists then
      if env.convertExitCode = 0 then
        if env.pngExists then RenderOutcome.success env.pngBase64
        else RenderOutcome.rasterNotProduced
      else RenderOutcome.rasterizationFailed
    else RenderOutcome.artifactNotProduced
  else RenderOutcome.compilationFailed (compileFailureDetails env)

/-- The `tikz_code` argument as received by `handle_call_tool`: absent
(`None`), a string, or some non-string value. -/
inductive ToolArg where
  | none
  | str (s : String)
  | other
deriving DecidableEq, Repr

/-- Result of the `render_tikz` tool call: the validation error returned
at lines 180-185 of the source, or the outcome of a pipeline run. -/
inductive CallResult where
  | validationError (msg : String)
  | rendered (outcome : RenderOutcome)
deriving DecidableEq, Repr

/-- The `render_tikz` branch of `handle_call_tool` (lines 176-209 of the
source): the check `not tikz_code or not isinstance(tikz_code, str)` runs
before `compile_tikz_to_image` is invoked. The second component records
whether the pipeline (and hence its scratch workspace) was started. -/
def handle_call_tool (arg : ToolArg) (env : CompileEnv) : CallResult × Bool :=
  match arg with
  | ToolArg.str s =>
    if s = "" then (CallResult.validationError "Error: Valid TikZ code is required", false)
    else (CallResult.rendered (compile_tikz_to_image env), true)
  | _ => (CallResult.validationError "Error: Valid TikZ code is required", false)

theorem isPrefixOf_self_append (pat rest : List Char) :
    pat.isPrefixOf (pat ++ rest) = true := by
  induction pat with
  | nil => simp [List.isPrefixOf]
  | cons a as ih => simp [List.cons_append, ih]

theorem containsSeq_append (pre pat post : List Char) :
    containsSeq pat (pre ++ (pat ++ post)) = true := by
  induction pre with
  | nil =>
    rw [List.nil_append]
    cases hp : pat ++ post with
    | nil =>
      have hpat : pat = [] := by
        cases pat with
        | nil => rfl
        | cons a as => simp at hp
      rw [hpat]
      rfl
    | cons c rest =>
      simp only [containsSeq]
      rw [← hp, isPrefixOf_self_append]
      rfl
  | cons c pre ih =>
    simp only [List.cons_append, containsSeq, List.append_eq, ih, Bool.or_true]

/-- Claim C6: any input that contains the full-document declaration marker
`\documentclass` is returned by the Document Normalizer byte-for-byte
unchanged. -/
theorem normalizer_full_document_passthrough (s : String)
    (h : strContains s "\\documentclass" = true) :
    normalizeDocument s = s := by
  simp [normalizeDocument, h]

theorem normalizer_full_document_passthrough_witness :
    strContains "\\documentclass\x7barticle\x7d" "\\documentclass" = true ∧
    normalizeDocument "\\documentclass\x7barticle\x7d" =
      "\\documentclass\x7barticle\x7d" :=
  ⟨by decide, normalizer_full_document_passthrough _ (by decide)⟩

/-- Claim C7: any input lacking the full-document marker is wrapped by the
fixed, input-independent template constants `templateHead` and
`templateTail`, and the normalized output contains the original input
verbatim as a contiguous substring. -/
theorem normalizer_fragment_wrapped (s : String)
    (h : strContains s "\\documentclass" = false) :
    normalizeDocument s = templateHead ++ s ++ templateTail ∧
    strContains (normalizeDocument s) s = true := by
  have hn : normalizeDocument s = templateHead ++ s ++ templateTail := by
    simp [normalizeDocument, h]
  refine ⟨hn, ?_⟩
  rw [hn]
  show containsSeq s.toList (templateHead ++ s ++ templateTail).toList = true
  have hd : (templateHead ++ s ++ templateTail).toList =
      templateHead.toList ++ (s.toList ++ templateTail.toList) := by
    simp [String.toList, String.append_assoc]
  rw [hd]
  exact containsSeq_append _ _ _

theorem normalizer_fragment_wrapped_witness :
    strContains "x" "\\documentclass" = false ∧
    (normalizeDocument "x" = templateHead ++ "x" ++ templateTail ∧
      strContains (normalizeDocument "x") "x" = true) :=
  ⟨by decide, normalizer_fragment_wrapped "x" (by decide)⟩

theorem length_takeLast_le {α : Type} (n : Nat) (l : List α) :
    (takeLast n l).length ≤ n := by
  simp only [takeLast, List.length_drop]
  omega

/-- Claim C2: for every compiler log text the diagnostic report has at most
20 lines: the structured extraction is truncated to its first 20 lines and
the fallback tail keeps at most 15 lines. -/
theorem diagnostic_report_bounded (log : String) :
    (extract_error_lines log).length ≤ 20 := by
  simp only [extract_error_lines]
  split
  · rw [List.length_take]
    exact Nat.min_le_left _ _
  · exact Nat.le_trans (length_takeLast_le _ _) (by omega)

theorem scanAux_no_trigger (lines rem : List String) (i : Nat)
    (h : rem.all (fun l => !(isTriggerLine l)) = true) :
    scanAux lines rem i initScanState = initScanState := by
  induction rem generalizing i with
  | nil => rfl
  | cons line rest ih =>
    rw [List.all_cons, Bool.and_eq_true] at h
    have h1 : isTriggerLine line = false := by simpa using h.1
    simp only [scanAux, h1, initScanState, Bool.false_eq_true, if_false]
    exact ih (i + 1) h.2

/-- Claim C3: on a log in which no line contains a trigger keyword, both
accumulators stay empty and the extractor falls back to the last 50 lines
of the log with blanks dropped, keeping the final 15 non-blank lines. -/
theorem no_trigger_fallback (log : String)
    (h : (pySplitNl log).all (fun l => !(isTriggerLine l)) = true) :
    extract_error_lines log =
      takeLast 15 ((takeLast 50 (pySplitNl log)).filter (fun l => !(pyStrip l == ""))) := by
  simp only [extract_error_lines]
  rw [scanAux_no_trigger _ _ _ h]
  simp [initScanState]

theorem no_trigger_fallback_witness :
    ((pySplitNl "hello\nworld").all (fun l => !(isTriggerLine l)) = true) ∧
    extract_error_lines "hello\nworld" =
      takeLast 15 ((takeLast 50 (pySplitNl "hello\nworld")).filter (fun l => !(pyStrip l == ""))) :=
  ⟨by decide, no_trigger_fallback "hello\nworld" (by decide)⟩

theorem backfillStep_take_length (lines ctx : List String) (j : Nat) :
    (backfillStep lines ctx j).take ctx.length = ctx ∧
    (backfillStep lines ctx j).length ≤ ctx.length + 1 := by
  simp only [backfillStep]
  split
  · exact ⟨List.take_left ctx _, by simp⟩
  · exact ⟨List.take_length ctx, by omega⟩

theorem foldl_backfillStep_bounds (lines : List String) (js : List Nat) (ctx : List String) :
    ((js.foldl (backfillStep lines) ctx).take ctx.length = ctx) ∧
    (js.foldl (backfillStep lines) ctx).length ≤ ctx.length + js.length := by
  induction js generalizing ctx with
  | nil => exact ⟨List.take_length ctx, by simp⟩
  | cons j js ih =>
    simp only [List.foldl_cons, List.length_cons]
    obtain ⟨hs1, hs2⟩ := backfillStep_take_length lines ctx j
    obtain ⟨ih1, ih2⟩ := ih (backfillStep lines ctx j)
    have hle : ctx.length ≤ (backfillStep lines ctx j).length := by
      have hlen := congrArg List.length hs1
      rw [List.length_take] at hlen
      omega
    constructor
    · have h1 : (js.foldl (backfillStep lines) (backfillStep lines ctx j)).take ctx.length =
          ((js.foldl (backfillStep lines) (backfillStep lines ctx j)).take
            (backfillStep lines ctx j).length).take ctx.length := by
        rw [List.take_take, Nat.min_eq_left hle]
      rw [h1, ih1, hs1]
    · omega

theorem backfill_bounds (lines : List String) (i : Nat) (ctx : List String) :
    (backfill lines i ctx).take ctx.length = ctx ∧
    (backfill lines i ctx).length ≤ ctx.length + 2 := by
  obtain ⟨h1, h2⟩ := foldl_backfillStep_bounds lines ((List.range i).drop (i - 2)) ctx
  refine ⟨h1, Nat.le_trans h2 ?_⟩
  have hlen : ((List.range i).drop (i - 2)).length = i - (i - 2) := by
    rw [List.length_drop, List.length_range]
  omega

/-- Claim C4: a line triggers the error section exactly when its lowercased
text contains one of `"! "`, `"error:"`, `"undefined"`, `"missing"`; on a
trigger the scan sets the flag, appends the stripped line to the error
accumulator, and back-fills up to 2 preceding non-empty, not already
captured lines into the context accumulator. -/
theorem trigger_line_behavior (lines rest : List String) (i : Nat)
    (st : ScanState) (line : String) :
    (isTriggerLine line = true ↔
      (strContains (pyLower line) "! " = true ∨
       strContains (pyLower line) "error:" = true ∨
       strContains (pyLower line) "undefined" = true ∨
       strContains (pyLower line) "missing" = true)) ∧
    (backfill lines i st.contextLines).take st.contextLines.length = st.contextLines ∧
    (backfill lines i st.contextLines).length ≤ st.contextLines.length + 2 ∧
    (isTriggerLine line = true →
      scanAux lines (line :: rest) i st =
        scanAux lines rest (i + 1)
          { errorSection := true,
            errorLines := st.errorLines ++ [pyStrip line],
            contextLines := backfill lines i st.contextLines }) := by
  obtain ⟨hb1, hb2⟩ := backfill_bounds lines i st.contextLines
  refine ⟨?_, hb1, hb2, ?_⟩
  · simp [isTriggerLine, triggerKeywords, Bool.or_eq_true, or_assoc]
  · intro htrig
    simp only [scanAux, htrig, if_true]

theorem trigger_line_behavior_witness :
    isTriggerLine "! Oops" = true ∧
    scanAux ["prev", "! Oops"] ["! Oops"] 1 initScanState =
      scanAux ["prev", "! Oops"] [] 2
        { errorSection := true,
          errorLines := initScanState.errorLines ++ [pyStrip "! Oops"],
          contextLines := backfill ["prev", "! Oops"] 1 initScanState.contextLines } :=
  ⟨by decide,
    (trigger_line_behavior ["prev", "! Oops"] [] 1 initScanState "! Oops").2.2.2 (by decide)⟩

/-- Claim C5: when the scan meets an empty line while the error-section
flag is up and at least one error line has been collected, it stops and
returns the state as is, examining no further lines. -/
theorem empty_line_ends_scan (lines rest : List String) (i : Nat) (st : ScanState)
    (hsec : st.errorSection = true) (herr : st.errorLines.length > 0) :
    scanAux lines ("" :: rest) i st = st := by
  have htrig : isTriggerLine "" = false := by decide
  have ht : pyStrip "" = "" := rfl
  simp [scanAux, htrig, hsec, ht, herr]

theorem empty_line_ends_scan_witness :
    (ScanState.mk true ["err line"] []).errorSection = true ∧
    (ScanState.mk true ["err line"] []).errorLines.length > 0 ∧
    scanAux ["x"] ["", "never seen ! error: undefined"] 0 (ScanState.mk true ["err line"] []) =
      ScanState.mk true ["err line"] [] :=
  ⟨rfl, by decide,
    empty_line_ends_scan ["x"] ["never seen ! error: undefined"] 0 _ rfl (by decide)⟩

/-- Claim C1 counterexample: with compiler exit status 1 and the compiled
artifact present in the workspace, the pipeline still produces a
compilation-failure outcome instead of proceeding to rasterization. -/
theorem nonzero_exit_with_artifact_still_fails :
    (CompileEnv.mk 1 "warning output" false "" true 0 true "IMG").exitCode ≠ 0 ∧
    (CompileEnv.mk 1 "warning output" false "" true 0 true "IMG").pdfExists = true ∧
    compile_tikz_to_image (CompileEnv.mk 1 "warning output" false "" true 0 true "IMG") =
      RenderOutcome.compilationFailed "warning output" := by
  refine ⟨by decide, rfl, by decide⟩

/-- Claim C1 as amended: a non-zero compiler exit status always produces a
compilation-failure outcome carrying the computed error details, whether
or not the artifact exists; rasterization is reached only after a zero
exit status. -/
theorem nonzero_exit_always_compilation_failed (env : CompileEnv)
    (h : env.exitCode ≠ 0) :
    compile_tikz_to_image env =
      RenderOutcome.compilationFailed (compileFailureDetails env) := by
  simp [compile_tikz_to_image, h]

theorem nonzero_exit_always_compilation_failed_witness :
    (CompileEnv.mk 2 "boom" false "" true 0 true "").exitCode ≠ 0 ∧
    compile_tikz_to_image (CompileEnv.mk 2 "boom" false "" true 0 true "") =
      RenderOutcome.compilationFailed
        (compileFailureDetails (CompileEnv.mk 2 "boom" false "" true 0 true "")) :=
  ⟨by decide, nonzero_exit_always_compilation_failed _ (by decide)⟩

/-- Claim C9: exit status zero with the artifact file absent yields the
artifact-not-produced failure rather than proceeding to rasterization. -/
theorem zero_exit_missing_artifact_not_produced (env : CompileEnv)
    (h0 : env.exitCode = 0) (hpdf : env.pdfExists = false) :
    compile_tikz_to_image env = RenderOutcome.artifactNotProduced := by
  simp [compile_tikz_to_image, h0, hpdf]

theorem zero_exit_missing_artifact_not_produced_witness :
    (CompileEnv.mk 0 "" true "log text" false 0 false "").exitCode = 0 ∧
    (CompileEnv.mk 0 "" true "log text" false 0 false "").pdfExists = false ∧
    compile_tikz_to_image (CompileEnv.mk 0 "" true "log text" false 0 false "") =
      RenderOutcome.artifactNotProduced :=
  ⟨rfl, rfl, zero_exit_missing_artifact_not_produced _ rfl rfl⟩

/-- Claim C10: on a non-zero exit with no log file in the workspace, the
log extractor is skipped and the failure details are the captured stderr
text, or the fixed sentinel when stderr is empty; the result does not
depend on any log content. -/
theorem no_log_file_uses_stderr (env : CompileEnv)
    (hexit : env.exitCode ≠ 0) (hlog : env.logExists = false) :
    compile_tikz_to_image env =
      RenderOutcome.compilationFailed
        (if env.stderr = "" then "LaTeX compilation failed - no log file generated"
         else env.stderr) := by
  simp [compile_tikz_to_image, compileFailureDetails, hexit, hlog]

theorem no_log_file_uses_stderr_witness :
    (CompileEnv.mk 1 "" false "! error: undefined missing" false 0 false "").exitCode ≠ 0 ∧
    (CompileEnv.mk 1 "" false "! error: undefined missing" false 0 false "").logExists = false ∧
    compile_tikz_to_image (CompileEnv.mk 1 "" false "! error: undefined missing" false 0 false "") =
      RenderOutcome.compilationFailed
        (if (CompileEnv.mk 1 "" false "! error: undefined missing" false 0 false "").stderr = ""
         then "LaTeX compilation failed - no log file generated"
         else (CompileEnv.mk 1 "" false "! error: undefined missing" false 0 false "").stderr) :=
  ⟨by decide, rfl, no_log_file_uses_stderr _ (by decide) rfl⟩

/-- Claim C8: a missing (`None`), empty-string, or non-string `tikz_code`
argument is rejected with the validation error before the pipeline starts,
and no scratch workspace is created. -/
theorem invalid_markup_rejected_before_pipeline (env : CompileEnv) :
    handle_call_tool ToolArg.none env =
      (CallResult.validationError "Error: Valid TikZ code is required", false) ∧
    handle_call_tool (ToolArg.str "") env =
      (CallResult.validationError "Error: Valid TikZ code is required", false) ∧
    handle_call_tool ToolArg.other env =
      (CallResult.validationError "Error: Valid TikZ code is required", false) := by
  refine ⟨rfl, ?_, rfl⟩
  simp [handle_call_tool]

end TikzSpec
